import Mathlib

/-!
Verification of the Channels-app integration core: the `ChannelsClient` HTTP
client (`api.py`) and the `Device` adapter (`device.py`) — status
reconciliation, polling, connection establishment, and command translation.

The Python code is shallowly embedded: JSON payloads become the inductive
`JVal`, Python dictionary/attribute access and truthiness become explicit
helper functions, exceptions become an error type threaded through results,
and in-place attribute mutation becomes explicit state passing that also
returns the partially-updated state when an exception interrupts a method
midway (matching Python's mutate-then-raise behaviour).
-/

/-- Model of a parsed JSON value (what `json.loads` can return), also used
for values stored in the adapter's attribute fields where Python allows any
payload value or `None`. -/
inductive JVal where
  | jnull
  | jbool (b : Bool)
  | jint (n : Int)
  | jstr (s : String)
  | jarr (xs : List JVal)
  | jobj (fields : List (String × JVal))

/-- First-match lookup in a JSON object's field list; `none` models a missing
key (Python `dict.get` returning the default). -/
def dictGet : List (String × JVal) → String → Option JVal
  | [], _ => none
  | (k, v) :: rest, key => if k = key then some v else dictGet rest key

/-- Python truthiness (`bool(v)`) for the modelled values: `None`/`False`/`0`/
empty string/empty list/empty dict are falsy, everything else truthy. -/
def truthy : JVal → Bool
  | .jnull => false
  | .jbool b => b
  | .jint n => n != 0
  | .jstr s => !(s.isEmpty)
  | .jarr xs => !(xs.isEmpty)
  | .jobj fs => !(fs.isEmpty)

/-- Python `a or b`: the first operand when truthy, otherwise the second. -/
def pyOr (a b : JVal) : JVal := if truthy a then a else b

/-- Python `str(v)` as used by f-string interpolation. Container rendering is
approximated (no claim evaluates it on a container). -/
def pyToString : JVal → String
  | .jnull => "None"
  | .jbool b => if b then "True" else "False"
  | .jint n => toString n
  | .jstr s => s
  | .jarr _ => "[...]"
  | .jobj _ => "{...}"

/-- Model of the Python exceptions that can arise in the embedded code:
`aiohttp.ClientResponseError`, `TimeoutError`, other `aiohttp.ClientError`,
`json.JSONDecodeError` (a `ValueError` raised by response parsing),
`ValueError`, `TypeError`, `AttributeError`, and `ConnectionError`. -/
inductive PyErr where
  | clientResponseError
  | timeoutError
  | clientError
  | jsonDecodeError
  | valueError
  | typeError
  | attributeError
  | connectionError
deriving DecidableEq, Repr

/-- Python `v.get(key)` — the dictionary method with default `None`: on a
dict, the stored value or `None`; on any non-dict it raises
`AttributeError` (no `get` attribute). -/
def JVal.get : JVal → String → Except PyErr JVal
  | .jobj fs, key => .ok ((dictGet fs key).getD .jnull)
  | _, _ => .error .attributeError

/-- Python `v.get(key, default)`: the stored value (even if `None`) when the
key is present, the default when absent; `AttributeError` on a non-dict. -/
def JVal.getD : JVal → String → JVal → Except PyErr JVal
  | .jobj fs, key, dflt => .ok ((dictGet fs key).getD dflt)
  | _, _, _ => .error .attributeError

/-- Python `int(v)`: identity on ints, 1/0 on bools, base-10 parse on strings
(`ValueError` on an unparseable string), `TypeError` on `None`, lists and
dicts. -/
def pyInt : JVal → Except PyErr Int
  | .jint n => .ok n
  | .jbool b => .ok (if b then 1 else 0)
  | .jstr s =>
    match s.toInt? with
    | some n => .ok n
    | none => .error .valueError
  | _ => .error .typeError

/-- The `ucapi` media-player states used by the integration
(`media_player.States`). -/
inductive States where
  | PLAYING
  | PAUSED
  | OFF
  | UNKNOWN
  | UNAVAILABLE
deriving DecidableEq, Repr

/-- The `ucapi` media types used by the integration
(`media_player.MediaType`). -/
inductive MediaType where
  | VIDEO
  | TVSHOW
deriving DecidableEq, Repr

/-- `_CHANNELS_STATE_MAP` from `device.py`: map from Channels status strings
to `ucapi` states. -/
def CHANNELS_STATE_MAP : List (String × States) :=
  [("playing", .PLAYING),
   ("paused", .PAUSED),
   ("stopped", .OFF),
   ("error", .UNKNOWN),
   ("offline", .UNAVAILABLE)]

/-- First-match lookup in the state map (same shape as `dictGet`). -/
def stateDictGet : List (String × States) → String → Option States
  | [], _ => none
  | (k, v) :: rest, key => if k = key then some v else stateDictGet rest key

/-- `_CHANNELS_STATE_MAP.get(v, States.UNKNOWN)`: Python `dict.get` with a
default. Dict and list arguments are unhashable and raise `TypeError`; any
hashable non-key (non-string values, unmapped strings) yields the default. -/
def stateMapGet : JVal → Except PyErr States
  | .jobj _ => .error .typeError
  | .jarr _ => .error .typeError
  | .jstr s => .ok ((stateDictGet CHANNELS_STATE_MAP s).getD States.UNKNOWN)
  | _ => .ok States.UNKNOWN

/-- `MediaPlayerAttributes` as initialised and mutated by `device.py`:
`STATE`/`MEDIA_TYPE` hold framework enums or `None`; `MEDIA_POSITION`/
`MEDIA_DURATION` hold Python ints or `None`; the remaining fields hold
whatever payload value the reconciliation stored (`JVal.jnull` models
`None`). -/
structure MediaPlayerAttributes where
  STATE : Option States
  MUTED : JVal
  MEDIA_TYPE : Option MediaType
  MEDIA_TITLE : JVal
  MEDIA_ARTIST : JVal
  MEDIA_IMAGE_URL : JVal
  MEDIA_POSITION : Option Int
  MEDIA_DURATION : Option Int

/-- The mutable state of one `Device`: `_power_state` and the attribute
snapshot `self.attributes`. -/
structure DeviceState where
  power : States
  attributes : MediaPlayerAttributes

/-- The state of a freshly constructed `Device`: `_power_state = UNKNOWN` and
every attribute field `None`. -/
def initDevice : DeviceState :=
  { power := .UNKNOWN,
    attributes :=
      { STATE := none, MUTED := .jnull, MEDIA_TYPE := none,
        MEDIA_TITLE := .jnull, MEDIA_ARTIST := .jnull,
        MEDIA_IMAGE_URL := .jnull, MEDIA_POSITION := none,
        MEDIA_DURATION := none } }

/-! ## The HTTP client (`api.py`) -/

/-- Abstraction of what the network does for one request issued by
`ChannelsClient._request`: a response arrives (with its HTTP-success flag and
its body, `none` standing for a body that is not valid JSON), the bounded
5-second timeout expires, or the connection fails (refused, reset, DNS
failure). -/
inductive TransportOutcome where
  | response (ok2xx : Bool) (parsedBody : Option JVal)
  | timeout
  | connFailure

/-- Model of `session.<verb>(url)` followed by `response.json(content_type=None)`
under aiohttp's defaults, which the client does not change: `raise_for_status`
is off, so a non-2xx response does not raise and its body is parsed like any
other; `content_type=None` disables the content-type check, so the only parse
failure is `json.JSONDecodeError` (a `ValueError`); a timeout raises
`TimeoutError` and a connection failure raises an `aiohttp.ClientError`. -/
def sessionRequestJson : TransportOutcome → Except PyErr JVal
  | .response _ (some body) => .ok body
  | .response _ none => .error .jsonDecodeError
  | .timeout => .error .timeoutError
  | .connFailure => .error .clientError

/-- `ChannelsClient._request`: run the verb dispatch and the fetch inside the
`try` block, then apply the `except` clauses in source order —
`aiohttp.ClientResponseError` becomes `{"status": "error"}`, `TimeoutError`
and `aiohttp.ClientError` become `{"status": "offline"}`, and any other
exception (including the `ValueError` raised for an unsupported verb and the
`JSONDecodeError` raised by parsing) propagates. -/
def ChannelsClient.request (method path : String) (params : Option JVal)
    (t : TransportOutcome) : Except PyErr JVal :=
  let attempt : Except PyErr JVal :=
    if method = "GET" then sessionRequestJson t
    else if method = "POST" then sessionRequestJson t
    else if method = "PUT" then sessionRequestJson t
    else if method = "DELETE" then sessionRequestJson t
    else .error .valueError
  match attempt with
  | .error .clientResponseError => .ok (.jobj [("status", .jstr "error")])
  | .error .timeoutError => .ok (.jobj [("status", .jstr "offline")])
  | .error .clientError => .ok (.jobj [("status", .jstr "offline")])
  | other => other

/-- `ChannelsClient._command`: POST to `/api/{named_command}` with no body. -/
def ChannelsClient.command (named_command : String) (t : TransportOutcome) :
    Except PyErr JVal :=
  ChannelsClient.request "POST" ("/api/" ++ named_command) none t

/-- `ChannelsClient.status`. -/
def ChannelsClient.status (t : TransportOutcome) : Except PyErr JVal :=
  ChannelsClient.request "GET" "/api/status" none t

/-- `ChannelsClient.favorite_channels`: the `_request` result if it is a
list, otherwise the empty list; an exception from `_request` propagates. -/
def ChannelsClient.favorite_channels (t : TransportOutcome) : Except PyErr JVal :=
  match ChannelsClient.request "GET" "/api/favorite_channels" none t with
  | .ok (.jarr xs) => .ok (.jarr xs)
  | .ok _ => .ok (.jarr [])
  | .error e => .error e

/-- `ChannelsClient.toggle_pause`. -/
def ChannelsClient.toggle_pause (t : TransportOutcome) : Except PyErr JVal :=
  ChannelsClient.command "toggle_pause" t

/-- `ChannelsClient.pause`. -/
def ChannelsClient.pause (t : TransportOutcome) : Except PyErr JVal :=
  ChannelsClient.command "pause" t

/-- `ChannelsClient.resume`. -/
def ChannelsClient.resume (t : TransportOutcome) : Except PyErr JVal :=
  ChannelsClient.command "resume" t

/-- `ChannelsClient.stop`. -/
def ChannelsClient.stop (t : TransportOutcome) : Except PyErr JVal :=
  ChannelsClient.command "stop" t

/-- `ChannelsClient.seek`: POST to `/api/seek/{seconds or 0}`. -/
def ChannelsClient.seek (seconds : Int) (t : TransportOutcome) : Except PyErr JVal :=
  ChannelsClient.command ("seek/" ++ toString (if seconds == 0 then (0 : Int) else seconds)) t

/-- `ChannelsClient.seek_forward`. -/
def ChannelsClient.seek_forward (t : TransportOutcome) : Except PyErr JVal :=
  ChannelsClient.command "seek_forward" t

/-- `ChannelsClient.seek_backward`. -/
def ChannelsClient.seek_backward (t : TransportOutcome) : Except PyErr JVal :=
  ChannelsClient.command "seek_backward" t

/-- `ChannelsClient.skip_forward`. -/
def ChannelsClient.skip_forward (t : TransportOutcome) : Except PyErr JVal :=
  ChannelsClient.command "skip_forward" t

/-- `ChannelsClient.skip_backward`. -/
def ChannelsClient.skip_backward (t : TransportOutcome) : Except PyErr JVal :=
  ChannelsClient.command "skip_backward" t

/-- `ChannelsClient.toggle_mute`. -/
def ChannelsClient.toggle_mute (t : TransportOutcome) : Except PyErr JVal :=
  ChannelsClient.command "toggle_mute" t

/-- `ChannelsClient.toggle_pip`. -/
def ChannelsClient.toggle_pip (t : TransportOutcome) : Except PyErr JVal :=
  ChannelsClient.command "toggle_pip" t

/-- `ChannelsClient.channel_up`. -/
def ChannelsClient.channel_up (t : TransportOutcome) : Except PyErr JVal :=
  ChannelsClient.command "channel_up" t

/-- `ChannelsClient.channel_down`. -/
def ChannelsClient.channel_down (t : TransportOutcome) : Except PyErr JVal :=
  ChannelsClient.command "channel_down" t

/-- `ChannelsClient.previous_channel`. -/
def ChannelsClient.previous_channel (t : TransportOutcome) : Except PyErr JVal :=
  ChannelsClient.command "previous_channel" t

/-- `ChannelsClient.play_channel`. -/
def ChannelsClient.play_channel (channel_number : Int) (t : TransportOutcome) :
    Except PyErr JVal :=
  ChannelsClient.command ("play/channel/" ++ toString channel_number) t

/-- `ChannelsClient.play_recording`. -/
def ChannelsClient.play_recording (recording_id : Int) (t : TransportOutcome) :
    Except PyErr JVal :=
  ChannelsClient.command ("play/recording/" ++ toString recording_id) t

/-- `ChannelsClient.navigate` (the Python parameter `section` is renamed
`section_name` because `section` is a Lean keyword). -/
def ChannelsClient.navigate (section_name : String) (t : TransportOutcome) :
    Except PyErr JVal :=
  ChannelsClient.command ("navigate/" ++ section_name) t

/-- `ChannelsClient.notify`: POST to `/api/notify` with a JSON body. -/
def ChannelsClient.notify (title message : String) (t : TransportOutcome) :
    Except PyErr JVal :=
  ChannelsClient.request "POST" "/api/notify"
    (some (.jobj [("title", .jstr title), ("message", .jstr message)])) t

/-- `ChannelsClient.toggle_cc`. -/
def ChannelsClient.toggle_cc (t : TransportOutcome) : Except PyErr JVal :=
  ChannelsClient.command "toggle_cc" t

/-- `ChannelsClient.toggle_record`. -/
def ChannelsClient.toggle_record (t : TransportOutcome) : Except PyErr JVal :=
  ChannelsClient.command "toggle_record" t

/-! ## The device adapter (`device.py`) -/

/-- Helper for the repeated in-place mutation pattern
`self.attributes.<field> := v`. -/
def DeviceState.setAttrs (d : DeviceState) (a : MediaPlayerAttributes) : DeviceState :=
  { d with attributes := a }

/-- Line 179-181 of `device.py`:
`channel.get("name") if channel and channel.get("name") else None` — Python
first evaluates the condition (`channel` truthy and its name truthy, where
`channel.get` raises on a truthy non-dict) and then the selected arm. -/
def artistFromChannel (channel : JVal) : Except PyErr JVal :=
  if truthy channel then
    match channel.get "name" with
    | .error e => .error e
    | .ok nm => .ok (if truthy nm then nm else .jnull)
  else .ok .jnull

/-- Lines 183-185 of `device.py`: the now-playing artwork with fallbacks —
`image_url or thumb_url`, and if that is falsy and a channel is present, the
channel's `image_url`. -/
def imageWithFallback (fs : List (String × JVal)) (channel : JVal) :
    Except PyErr JVal :=
  let image0 := pyOr ((dictGet fs "image_url").getD .jnull)
                     ((dictGet fs "thumb_url").getD .jnull)
  if !truthy image0 && truthy channel then channel.get "image_url"
  else .ok image0

/-- The `if now_playing:` branch of `_update_state_from_status` (lines
163-191): media type from `now_playing["type"]`, title from title and
episode title, artist from the sibling channel's name, artwork from the
now-playing image with fallbacks, duration from `int(now_playing["duration"])`.
Mirrors Python's in-place mutation: on an exception the state mutated so far
is returned together with the error. -/
def contentNowPlaying (d : DeviceState) (now_playing channel : JVal) :
    DeviceState × Option PyErr :=
  match now_playing with
  | .jobj fs =>
    let content_type := (dictGet fs "type").getD (.jstr "")
    let mtype : MediaType :=
      match content_type with
      | .jstr "movie" => MediaType.VIDEO
      | _ => MediaType.TVSHOW
    let d1 := d.setAttrs { d.attributes with MEDIA_TYPE := some mtype }
    let title := (dictGet fs "title").getD .jnull
    let episode_title := (dictGet fs "episode_title").getD .jnull
    let mtitle : JVal :=
      if truthy title && truthy episode_title then
        .jstr (pyToString title ++ " - " ++ pyToString episode_title)
      else if truthy title then title
      else .jnull
    let d2 := d1.setAttrs { d1.attributes with MEDIA_TITLE := mtitle }
    match artistFromChannel channel with
    | .error e => (d2, some e)
    | .ok art =>
      let d3 := d2.setAttrs { d2.attributes with MEDIA_ARTIST := art }
      match imageWithFallback fs channel with
      | .error e => (d3, some e)
      | .ok img =>
        let d4 := d3.setAttrs { d3.attributes with MEDIA_IMAGE_URL := img }
        match (dictGet fs "duration").getD .jnull with
        | .jnull => (d4.setAttrs { d4.attributes with MEDIA_DURATION := none }, none)
        | v =>
          match pyInt v with
          | .error e => (d4, some e)
          | .ok n => (d4.setAttrs { d4.attributes with MEDIA_DURATION := some n }, none)
  | _ => (d, some .attributeError)

/-- The `elif channel:` branch of `_update_state_from_status` (lines
193-198): TVSHOW, channel name as title, `"Ch. " + number` as artist (string
concatenation raises `TypeError` on a non-string), channel artwork, no
duration. Mirrors Python's in-place mutation order. -/
def contentChannel (d : DeviceState) (channel : JVal) : DeviceState × Option PyErr :=
  let d1 := d.setAttrs { d.attributes with MEDIA_TYPE := some MediaType.TVSHOW }
  match channel.get "name" with
  | .error e => (d1, some e)
  | .ok nm =>
    let d2 := d1.setAttrs { d1.attributes with MEDIA_TITLE := nm }
    match channel.getD "number" (.jstr "") with
    | .error e => (d2, some e)
    | .ok num =>
      match num with
      | .jstr s =>
        let d3 := d2.setAttrs { d2.attributes with MEDIA_ARTIST := .jstr ("Ch. " ++ s) }
        match channel.get "image_url" with
        | .error e => (d3, some e)
        | .ok img =>
          (d3.setAttrs { d3.attributes with MEDIA_IMAGE_URL := img,
                                            MEDIA_DURATION := none }, none)
      | _ => (d2, some .typeError)

/-- The final `else` branch of `_update_state_from_status` (lines 199-204):
neither now-playing nor channel data — clear every content field. -/
def contentIdle (d : DeviceState) : DeviceState × Option PyErr :=
  (d.setAttrs { d.attributes with MEDIA_TYPE := none, MEDIA_TITLE := .jnull,
                                  MEDIA_ARTIST := .jnull, MEDIA_IMAGE_URL := .jnull,
                                  MEDIA_DURATION := none }, none)

/-- Lines 155-158 of `device.py`: `int(playback_time) if playback_time is not
None else None`, where `playback_time = status.get("playback_time")`. -/
def playbackPosition (status : List (String × JVal)) : Except PyErr (Option Int) :=
  match (dictGet status "playback_time").getD .jnull with
  | .jnull => .ok none
  | v =>
    match pyInt v with
    | .error e => .error e
    | .ok n => .ok (some n)

/-- `Device._update_state_from_status`: power state from
`_CHANNELS_STATE_MAP.get(status.get("status", "stopped"), UNKNOWN)`, muted,
playback position, then exactly one of the three content branches. The
returned `DeviceState` reflects every field assigned before a possible
exception (Python mutates `self` in place), and the `Option PyErr` is the
exception, if any, that the method raises. -/
def Device.update_state_from_status (d : DeviceState)
    (status : List (String × JVal)) : DeviceState × Option PyErr :=
  match stateMapGet ((dictGet status "status").getD (.jstr "stopped")) with
  | .error e => (d, some e)
  | .ok st =>
    let d1 := { d with power := st,
                       attributes := { d.attributes with STATE := some st } }
    let muted := (dictGet status "muted").getD (.jbool false)
    let d2 := d1.setAttrs { d1.attributes with MUTED := muted }
    match playbackPosition status with
    | .error e => (d2, some e)
    | .ok pos =>
      let d3 := d2.setAttrs { d2.attributes with MEDIA_POSITION := pos }
      let now_playing := (dictGet status "now_playing").getD .jnull
      let channel := (dictGet status "channel").getD .jnull
      if truthy now_playing then contentNowPlaying d3 now_playing channel
      else if truthy channel then contentChannel d3 channel
      else contentIdle d3

/-- Shorthand for the repeated pair of mutations
`self._power_state = States.UNAVAILABLE; self.attributes.STATE = States.UNAVAILABLE`. -/
def DeviceState.forceUnavailable (d : DeviceState) : DeviceState :=
  { d with power := .UNAVAILABLE,
           attributes := { d.attributes with STATE := some States.UNAVAILABLE } }

/-- `Device.poll_device`: one status fetch under a blanket `except Exception`
guard; the offline envelope or any exception (from the fetch, from
`status.get` on a non-dict body, or from reconciliation) forces
UNAVAILABLE; otherwise full reconciliation runs. `_refresh_entities` always
runs once afterwards — the `Nat` is the number of pushes. -/
def Device.poll_device (d : DeviceState) (t : TransportOutcome) : DeviceState × Nat :=
  let after :=
    match ChannelsClient.status t with
    | .error _ => d.forceUnavailable
    | .ok (.jobj fs) =>
      match dictGet fs "status" with
      | some (.jstr "offline") => d.forceUnavailable
      | _ =>
        match Device.update_state_from_status d fs with
        | (d2, some _) => d2.forceUnavailable
        | (d2, none) => d2
    | .ok _ => d.forceUnavailable
  (after, 1)

/-- `Device.establish_connection`: one status fetch with no guard — an
exception from the fetch or from `status.get` propagates; a `status` field
equal to `"offline"` raises `ConnectionError`; otherwise reconciliation runs
(its exception, if any, propagates) and on success the attributes are pushed
once. Result: final device state, number of pushes, propagated exception. -/
def Device.establish_connection (d : DeviceState) (t : TransportOutcome) :
    DeviceState × Nat × Option PyErr :=
  match ChannelsClient.status t with
  | .error e => (d, 0, some e)
  | .ok (.jobj fs) =>
    match dictGet fs "status" with
    | some (.jstr "offline") => (d, 0, some .connectionError)
    | _ =>
      match Device.update_state_from_status d fs with
      | (d2, some e) => (d2, 0, some e)
      | (d2, none) => (d2, 1, none)
  | .ok _ => (d, 0, some .attributeError)

/-! ## Command translation (`device.py` lines 206-267, `media_player.py`) -/

/-- `Device.play_pause`: await the client call, discarding its return value;
only an exception from the client propagates. -/
def Device.play_pause (t : TransportOutcome) : Except PyErr Unit :=
  match ChannelsClient.toggle_pause t with
  | .ok _ => .ok ()
  | .error e => .error e

/-- `Device.pause`. -/
def Device.pause (t : TransportOutcome) : Except PyErr Unit :=
  match ChannelsClient.pause t with
  | .ok _ => .ok ()
  | .error e => .error e

/-- `Device.play` (resume). -/
def Device.play (t : TransportOutcome) : Except PyErr Unit :=
  match ChannelsClient.resume t with
  | .ok _ => .ok ()
  | .error e => .error e

/-- `Device.stop`. -/
def Device.stop (t : TransportOutcome) : Except PyErr Unit :=
  match ChannelsClient.stop t with
  | .ok _ => .ok ()
  | .error e => .error e

/-- `Device.mute_toggle`. -/
def Device.mute_toggle (t : TransportOutcome) : Except PyErr Unit :=
  match ChannelsClient.toggle_mute t with
  | .ok _ => .ok ()
  | .error e => .error e

/-- `Device.channel_up`. -/
def Device.channel_up (t : TransportOutcome) : Except PyErr Unit :=
  match ChannelsClient.channel_up t with
  | .ok _ => .ok ()
  | .error e => .error e

/-- `Device.channel_down`. -/
def Device.channel_down (t : TransportOutcome) : Except PyErr Unit :=
  match ChannelsClient.channel_down t with
  | .ok _ => .ok ()
  | .error e => .error e

/-- `Device.previous_channel`. -/
def Device.previous_channel (t : TransportOutcome) : Except PyErr Unit :=
  match ChannelsClient.previous_channel t with
  | .ok _ => .ok ()
  | .error e => .error e

/-- `Device.seek_forward`. -/
def Device.seek_forward (t : TransportOutcome) : Except PyErr Unit :=
  match ChannelsClient.seek_forward t with
  | .ok _ => .ok ()
  | .error e => .error e

/-- `Device.seek_backward`. -/
def Device.seek_backward (t : TransportOutcome) : Except PyErr Unit :=
  match ChannelsClient.seek_backward t with
  | .ok _ => .ok ()
  | .error e => .error e

/-- `Device.skip_forward`. -/
def Device.skip_forward (t : TransportOutcome) : Except PyErr Unit :=
  match ChannelsClient.skip_forward t with
  | .ok _ => .ok ()
  | .error e => .error e

/-- `Device.skip_backward`. -/
def Device.skip_backward (t : TransportOutcome) : Except PyErr Unit :=
  match ChannelsClient.skip_backward t with
  | .ok _ => .ok ()
  | .error e => .error e

/-- `Device.toggle_cc`. -/
def Device.toggle_cc (t : TransportOutcome) : Except PyErr Unit :=
  match ChannelsClient.toggle_cc t with
  | .ok _ => .ok ()
  | .error e => .error e

/-- `Device.toggle_record`. -/
def Device.toggle_record (t : TransportOutcome) : Except PyErr Unit :=
  match ChannelsClient.toggle_record t with
  | .ok _ => .ok ()
  | .error e => .error e

/-- One observable call into the client issued by `Device.seek`. -/
inductive ClientCall where
  | seekDelta (seconds : Int)
deriving DecidableEq, Repr

/-- `Device.seek`: `current = self.attributes.MEDIA_POSITION or 0` (Python
`or`, so `None` and `0` both give 0), `delta = position - current`, and the
relative-seek client call is issued only when `delta != 0`. Returns the list
of client calls issued together with the method's outcome. -/
def Device.seek (a : MediaPlayerAttributes) (position : Int)
    (t : TransportOutcome) : List ClientCall × Except PyErr Unit :=
  let current : Int :=
    match a.MEDIA_POSITION with
    | none => 0
    | some n => if n == 0 then 0 else n
  let delta := position - current
  if delta ≠ 0 then
    ([.seekDelta delta],
     match ChannelsClient.seek delta t with
     | .ok _ => .ok ()
     | .error e => .error e)
  else ([], .ok ())

/-- The `ucapi.StatusCodes` values produced by `handle_command`. -/
inductive StatusCodes where
  | OK
  | BAD_REQUEST
  | NOT_IMPLEMENTED
deriving DecidableEq, Repr

/-- The command identifiers `ChannelsMediaPlayer.handle_command` matches on
(`ucapi` commands plus the integration's simple commands); `SEEK` carries the
optional `media_position` parameter. -/
inductive CmdId where
  | PLAY_PAUSE
  | STOP
  | NEXT
  | PREVIOUS
  | FAST_FORWARD
  | REWIND
  | MUTE_TOGGLE
  | SEEK (media_position : Option Int)
  | CHANNEL_UP
  | CHANNEL_DOWN
  | TOGGLE_CC
  | TOGGLE_PIP
  | TOGGLE_RECORD
  | SEEK_FORWARD
  | SEEK_BACKWARD
  | UNHANDLED

/-- `ChannelsMediaPlayer.handle_command`: dispatch the command to the device
method inside a `try`; any exception maps to `BAD_REQUEST`, a missing seek
parameter maps to `BAD_REQUEST` before any call, an unknown command maps to
`NOT_IMPLEMENTED`, and normal completion maps to `OK`. The `TOGGLE_PIP` case
calls `self._device.toggle_pip()`, a method `device.py` does not define, so
it raises `AttributeError` (caught into `BAD_REQUEST`) instead of reaching
the client. -/
def handle_command (d : DeviceState) (cmd : CmdId) (t : TransportOutcome) :
    StatusCodes :=
  match cmd with
  | .SEEK none => .BAD_REQUEST
  | .UNHANDLED => .NOT_IMPLEMENTED
  | .SEEK (some p) =>
    match (Device.seek d.attributes p t).2 with
    | .ok _ => .OK
    | .error _ => .BAD_REQUEST
  | c =>
    let run : Except PyErr Unit :=
      match c with
      | .PLAY_PAUSE => Device.play_pause t
      | .STOP => Device.stop t
      | .NEXT => Device.channel_up t
      | .PREVIOUS => Device.previous_channel t
      | .FAST_FORWARD => Device.skip_forward t
      | .REWIND => Device.skip_backward t
      | .MUTE_TOGGLE => Device.mute_toggle t
      | .CHANNEL_UP => Device.channel_up t
      | .CHANNEL_DOWN => Device.channel_down t
      | .TOGGLE_CC => Device.toggle_cc t
      | .TOGGLE_PIP => .error .attributeError
      | .TOGGLE_RECORD => Device.toggle_record t
      | .SEEK_FORWARD => Device.seek_forward t
      | .SEEK_BACKWARD => Device.seek_backward t
      | _ => .ok ()
    match run with
    | .ok _ => .OK
    | .error _ => .BAD_REQUEST

/-! ## Helper lemmas -/

theorem contentNowPlaying_frame (d : DeviceState) (np ch : JVal) :
    (contentNowPlaying d np ch).1.power = d.power ∧
    (contentNowPlaying d np ch).1.attributes.STATE = d.attributes.STATE ∧
    (contentNowPlaying d np ch).1.attributes.MUTED = d.attributes.MUTED ∧
    (contentNowPlaying d np ch).1.attributes.MEDIA_POSITION = d.attributes.MEDIA_POSITION := by
  cases np
  all_goals simp only [contentNowPlaying]
  all_goals repeat' split
  all_goals simp [DeviceState.setAttrs]

theorem contentChannel_frame (d : DeviceState) (ch : JVal) :
    (contentChannel d ch).1.power = d.power ∧
    (contentChannel d ch).1.attributes.STATE = d.attributes.STATE ∧
    (contentChannel d ch).1.attributes.MUTED = d.attributes.MUTED ∧
    (contentChannel d ch).1.attributes.MEDIA_POSITION = d.attributes.MEDIA_POSITION := by
  unfold contentChannel
  repeat' split
  all_goals simp [DeviceState.setAttrs]

theorem contentIdle_frame (d : DeviceState) :
    (contentIdle d).1.power = d.power ∧
    (contentIdle d).1.attributes.STATE = d.attributes.STATE ∧
    (contentIdle d).1.attributes.MUTED = d.attributes.MUTED ∧
    (contentIdle d).1.attributes.MEDIA_POSITION = d.attributes.MEDIA_POSITION := by
  simp [contentIdle, DeviceState.setAttrs]

theorem chanStateLookup_cases (s : String) :
    (stateDictGet CHANNELS_STATE_MAP s).getD States.UNKNOWN =
      (if s = "playing" then States.PLAYING
       else if s = "paused" then States.PAUSED
       else if s = "stopped" then States.OFF
       else if s = "error" then States.UNKNOWN
       else if s = "offline" then States.UNAVAILABLE
       else States.UNKNOWN) := by
  simp only [CHANNELS_STATE_MAP, stateDictGet]
  split_ifs <;> subst_vars <;> simp_all

theorem contentDispatch_frame (d : DeviceState) (np ch : JVal) :
    ((if truthy np then contentNowPlaying d np ch
      else if truthy ch then contentChannel d ch
      else contentIdle d)).1.power = d.power ∧
    ((if truthy np then contentNowPlaying d np ch
      else if truthy ch then contentChannel d ch
      else contentIdle d)).1.attributes.STATE = d.attributes.STATE ∧
    ((if truthy np then contentNowPlaying d np ch
      else if truthy ch then contentChannel d ch
      else contentIdle d)).1.attributes.MUTED = d.attributes.MUTED ∧
    ((if truthy np then contentNowPlaying d np ch
      else if truthy ch then contentChannel d ch
      else contentIdle d)).1.attributes.MEDIA_POSITION = d.attributes.MEDIA_POSITION := by
  split_ifs <;>
    simp [contentNowPlaying_frame, contentChannel_frame, contentIdle_frame]

theorem update_state_sets_state (d : DeviceState) (status : List (String × JVal))
    (st : States)
    (h : stateMapGet ((dictGet status "status").getD (.jstr "stopped")) = .ok st) :
    (Device.update_state_from_status d status).1.power = st ∧
    (Device.update_state_from_status d status).1.attributes.STATE = some st := by
  unfold Device.update_state_from_status
  rw [h]
  repeat' split
  all_goals simp_all [DeviceState.setAttrs, contentDispatch_frame]

/-! ## Claims -/

/-- Claim C1: for every raw status payload whose `"status"` field is present
(with a string value — the only case the claim's mapping speaks about),
reconciliation (`_update_state_from_status`) sets the power state (both
`_power_state` and `attributes.STATE`) by the total deterministic mapping
playing→PLAYING, paused→PAUSED, stopped→OFF, error→UNKNOWN,
offline→UNAVAILABLE, and any other string→UNKNOWN; exactly one state results
for every input string. -/
theorem C1_status_string_state_mapping (d : DeviceState)
    (status : List (String × JVal)) (s : String)
    (h : dictGet status "status" = some (.jstr s)) :
    (Device.update_state_from_status d status).1.power =
      (if s = "playing" then States.PLAYING
       else if s = "paused" then States.PAUSED
       else if s = "stopped" then States.OFF
       else if s = "error" then States.UNKNOWN
       else if s = "offline" then States.UNAVAILABLE
       else States.UNKNOWN) ∧
    (Device.update_state_from_status d status).1.attributes.STATE =
      some (if s = "playing" then States.PLAYING
       else if s = "paused" then States.PAUSED
       else if s = "stopped" then States.OFF
       else if s = "error" then States.UNKNOWN
       else if s = "offline" then States.UNAVAILABLE
       else States.UNKNOWN) := by
  have key := update_state_sets_state d status
      ((stateDictGet CHANNELS_STATE_MAP s).getD States.UNKNOWN) (by rw [h]; rfl)
  exact ⟨key.1.trans (chanStateLookup_cases s),
         key.2.trans (by rw [chanStateLookup_cases s])⟩

/-- Witness for C1 at the concrete payload `{"status": "paused"}`. -/
theorem C1_status_string_state_mapping_witness :
    (Device.update_state_from_status initDevice
        [("status", JVal.jstr "paused")]).1.power = States.PAUSED ∧
    (Device.update_state_from_status initDevice
        [("status", JVal.jstr "paused")]).1.attributes.STATE =
      some States.PAUSED := by
  have key := C1_status_string_state_mapping initDevice
      [("status", JVal.jstr "paused")] "paused" rfl
  simpa using key

/-- Claim C10: for every payload in which the `"status"` key is entirely
absent, reconciliation sets the power state to OFF (the missing key defaults
to the string `"stopped"`), not to the UNKNOWN state used for unrecognized
status strings. -/
theorem C10_absent_status_defaults_to_off (d : DeviceState)
    (status : List (String × JVal)) (h : dictGet status "status" = none) :
    (Device.update_state_from_status d status).1.power = States.OFF ∧
    (Device.update_state_from_status d status).1.attributes.STATE =
      some States.OFF := by
  exact update_state_sets_state d status States.OFF
    (by simp [h, stateMapGet, stateDictGet, CHANNELS_STATE_MAP])

/-- Witness for C10 at the concrete payload `{"muted": true}` (no status key). -/
theorem C10_absent_status_defaults_to_off_witness :
    (Device.update_state_from_status initDevice
        [("muted", JVal.jbool true)]).1.power = States.OFF ∧
    (Device.update_state_from_status initDevice
        [("muted", JVal.jbool true)]).1.attributes.STATE = some States.OFF :=
  C10_absent_status_defaults_to_off initDevice [("muted", JVal.jbool true)] rfl

theorem JVal.get_err (v : JVal) (k : String) (e : PyErr)
    (h : v.get k = .error e) : e = PyErr.attributeError := by
  cases v <;> simp_all [JVal.get]

theorem JVal.getD_err (v : JVal) (k : String) (dflt : JVal) (e : PyErr)
    (h : v.getD k dflt = .error e) : e = PyErr.attributeError := by
  cases v <;> simp_all [JVal.getD]

theorem pyInt_err (v : JVal) (e : PyErr) (h : pyInt v = .error e) :
    e = PyErr.typeError ∨ e = PyErr.valueError := by
  cases v <;> try simp_all [pyInt]
  case jstr s =>
    split at h <;> simp_all

theorem stateMapGet_err (v : JVal) (e : PyErr) (h : stateMapGet v = .error e) :
    e = PyErr.typeError := by
  cases v <;> simp_all [stateMapGet]

theorem playbackPosition_err (status : List (String × JVal)) (e : PyErr)
    (h : playbackPosition status = .error e) :
    e = PyErr.typeError ∨ e = PyErr.valueError := by
  simp only [playbackPosition] at h
  split at h
  · simp_all
  · split at h <;> simp_all
    exact pyInt_err _ _ (by assumption)

theorem artistFromChannel_err (ch : JVal) (e : PyErr)
    (h : artistFromChannel ch = .error e) : e = PyErr.attributeError := by
  simp only [artistFromChannel] at h
  repeat' split at h
  all_goals first
    | (simp_all; done)
    | (have hx := JVal.get_err _ _ _ (by assumption); simp_all; done)

theorem imageWithFallback_err (fs : List (String × JVal)) (ch : JVal) (e : PyErr)
    (h : imageWithFallback fs ch = .error e) : e = PyErr.attributeError := by
  simp only [imageWithFallback] at h
  repeat' split at h
  all_goals first
    | (simp_all; done)
    | (have hx := JVal.get_err _ _ _ (by assumption); simp_all; done)

theorem contentNowPlaying_err (d : DeviceState) (np ch : JVal) (e : PyErr)
    (h : (contentNowPlaying d np ch).2 = some e) :
    e = PyErr.typeError ∨ e = PyErr.valueError ∨ e = PyErr.attributeError := by
  cases np
  all_goals (try simp only [contentNowPlaying] at h)
  all_goals repeat' split at h
  all_goals first
    | (simp_all; done)
    | (have hx := artistFromChannel_err _ _ (by assumption); simp_all; done)
    | (have hx := imageWithFallback_err _ _ _ (by assumption); simp_all; done)
    | (rcases pyInt_err _ _ (by assumption) with h1 | h1 <;> simp_all <;> done)

theorem contentChannel_err (d : DeviceState) (ch : JVal) (e : PyErr)
    (h : (contentChannel d ch).2 = some e) :
    e = PyErr.typeError ∨ e = PyErr.valueError ∨ e = PyErr.attributeError := by
  simp only [contentChannel] at h
  repeat' split at h
  all_goals first
    | (simp_all; done)
    | (have hx := JVal.get_err _ _ _ (by assumption); simp_all; done)
    | (have hx := JVal.getD_err _ _ _ _ (by assumption); simp_all; done)

theorem update_state_err (d : DeviceState) (status : List (String × JVal))
    (e : PyErr) (h : (Device.update_state_from_status d status).2 = some e) :
    e = PyErr.typeError ∨ e = PyErr.valueError ∨ e = PyErr.attributeError := by
  simp only [Device.update_state_from_status] at h
  repeat' split at h
  all_goals first
    | (simp_all [contentIdle, DeviceState.setAttrs]; done)
    | exact contentNowPlaying_err _ _ _ _ (by assumption)
    | exact contentChannel_err _ _ _ (by assumption)
    | (have hx := stateMapGet_err _ _ (by assumption); simp_all; done)
    | (rcases playbackPosition_err _ _ (by assumption) with h1 | h1 <;> simp_all <;> done)

theorem status_err (t : TransportOutcome) (e : PyErr)
    (h : ChannelsClient.status t = .error e) : e = PyErr.jsonDecodeError := by
  cases t with
  | response b body =>
    cases body <;>
      simp_all [ChannelsClient.status, ChannelsClient.request, sessionRequestJson]
  | timeout =>
    simp_all [ChannelsClient.status, ChannelsClient.request, sessionRequestJson]
  | connFailure =>
    simp_all [ChannelsClient.status, ChannelsClient.request, sessionRequestJson]

theorem establish_fetch_err (d : DeviceState) (t : TransportOutcome) (e : PyErr)
    (h : ChannelsClient.status t = .error e) :
    Device.establish_connection d t = (d, 0, some e) := by
  unfold Device.establish_connection; rw [h]

theorem establish_ok_jobj (d : DeviceState) (t : TransportOutcome)
    (fs : List (String × JVal)) (h : ChannelsClient.status t = .ok (.jobj fs)) :
    Device.establish_connection d t =
      (match dictGet fs "status" with
       | some (.jstr "offline") => (d, 0, some PyErr.connectionError)
       | _ =>
         match Device.update_state_from_status d fs with
         | (d2, some e) => (d2, 0, some e)
         | (d2, none) => (d2, 1, none)) := by
  unfold Device.establish_connection; rw [h]

/-- Claim C6 (amended): `establish_connection` raises `ConnectionError`
exactly when the fetched status body is a dict whose `"status"` field equals
`"offline"`; on any other fetched dict for which reconciliation raises no
exception, it completes without raising, reconciles the attributes from the
fetched status, and pushes them to subscribers exactly once. (The original
claim fails when reconciliation itself raises — see the counterexample.) -/
theorem C6_establish_connection_offline_fatal (d : DeviceState)
    (t : TransportOutcome) :
    ((Device.establish_connection d t).2.2 = some PyErr.connectionError ↔
      (∃ fs, ChannelsClient.status t = .ok (.jobj fs) ∧
             dictGet fs "status" = some (.jstr "offline"))) ∧
    (∀ fs, ChannelsClient.status t = .ok (.jobj fs) →
      dictGet fs "status" ≠ some (.jstr "offline") →
      (Device.update_state_from_status d fs).2 = none →
      Device.establish_connection d t =
        ((Device.update_state_from_status d fs).1, 1, none)) := by
  constructor
  · constructor
    · intro hc
      cases ht : ChannelsClient.status t with
      | error e =>
        rw [establish_fetch_err d t e ht] at hc
        simp at hc
        have he := status_err t e ht
        simp_all
      | ok v =>
        cases v
        case jobj fs =>
          rw [establish_ok_jobj d t fs ht] at hc
          refine ⟨fs, rfl, ?_⟩
          by_contra hne
          split at hc
          · rename_i heq
            exact hne heq
          · split at hc
            · rename_i d2 e2 heq
              simp at hc
              rcases update_state_err d fs e2 (by rw [heq]) with h1 | h1 | h1 <;>
                simp_all
            · simp at hc
        all_goals
          rw [show Device.establish_connection d t = (d, 0, some PyErr.attributeError) by
              unfold Device.establish_connection; rw [ht]] at hc
        all_goals simp at hc
    · rintro ⟨fs, hfs, hoff⟩
      rw [establish_ok_jobj d t fs hfs, hoff]
      rfl
  · intro fs hfs hne hrec
    rw [establish_ok_jobj d t fs hfs]
    split
    · rename_i heq
      exact absurd heq hne
    · split
      · rename_i d2 e2 heq
        rw [heq] at hrec
        simp at hrec
      · rename_i d2 heq
        rw [heq]

/-- Counterexample to claim C6 as stated: the fetched status
`{"status": "playing", "playback_time": {}}` is not the offline envelope, yet
`establish_connection` does not complete — reconciliation raises a
`TypeError` (from `int({})`) which propagates, with zero pushes. -/
theorem C6_counterexample :
    ChannelsClient.status (TransportOutcome.response true
        (some (.jobj [("status", .jstr "playing"), ("playback_time", .jobj [])]))) =
      .ok (.jobj [("status", .jstr "playing"), ("playback_time", .jobj [])]) ∧
    dictGet [("status", .jstr "playing"), ("playback_time", .jobj [])] "status" ≠
      some (.jstr "offline") ∧
    (Device.establish_connection initDevice (TransportOutcome.response true
        (some (.jobj [("status", .jstr "playing"), ("playback_time", .jobj [])])))).2.2 =
      some PyErr.typeError := by
  refine ⟨rfl, ?_, rfl⟩
  simp [dictGet]

/-- Witness for the amended C6: the transport timeout makes the fetch return
the offline envelope and `establish_connection` raise `ConnectionError`; a
healthy `{"status": "playing"}` fetch completes with one push. -/
theorem C6_establish_connection_offline_fatal_witness :
    (Device.establish_connection initDevice TransportOutcome.timeout).2.2 =
      some PyErr.connectionError ∧
    Device.establish_connection initDevice
        (TransportOutcome.response true (some (.jobj [("status", .jstr "playing")]))) =
      ((Device.update_state_from_status initDevice
          [("status", .jstr "playing")]).1, 1, none) := by
  constructor
  · exact (C6_establish_connection_offline_fatal initDevice .timeout).1.2
      ⟨[("status", .jstr "offline")], rfl, rfl⟩
  · exact (C6_establish_connection_offline_fatal initDevice _).2
      [("status", .jstr "playing")] rfl (by simp [dictGet]) rfl

theorem poll_fetch_err (d : DeviceState) (t : TransportOutcome) (e : PyErr)
    (h : ChannelsClient.status t = .error e) :
    Device.poll_device d t = (d.forceUnavailable, 1) := by
  unfold Device.poll_device; rw [h]

theorem poll_ok_jobj (d : DeviceState) (t : TransportOutcome)
    (fs : List (String × JVal)) (h : ChannelsClient.status t = .ok (.jobj fs)) :
    Device.poll_device d t =
      ((match dictGet fs "status" with
        | some (.jstr "offline") => d.forceUnavailable
        | _ =>
          match Device.update_state_from_status d fs with
          | (d2, some _) => d2.forceUnavailable
          | (d2, none) => d2), 1) := by
  unfold Device.poll_device; rw [h]

/-- Claim C3 (amended): when `poll_device` observes the offline envelope, or
the status fetch raises, or the fetched body is not a dict, the state is
forced to UNAVAILABLE and every other attribute field is unchanged (the
result is exactly the prior state with only `STATE`/`_power_state`
overwritten), with one push. When reconciliation itself raises midway, the
state is still forced to UNAVAILABLE, but fields assigned before the raising
point keep their newly assigned values (see the counterexample to the
original claim). -/
theorem C3_poll_failure_forces_unavailable (d : DeviceState)
    (t : TransportOutcome) :
    (∀ e, ChannelsClient.status t = .error e →
      Device.poll_device d t =
        ({ d with power := .UNAVAILABLE,
                  attributes :=
                    { d.attributes with STATE := some States.UNAVAILABLE } }, 1)) ∧
    (∀ fs, ChannelsClient.status t = .ok (.jobj fs) →
      dictGet fs "status" = some (.jstr "offline") →
      Device.poll_device d t =
        ({ d with power := .UNAVAILABLE,
                  attributes :=
                    { d.attributes with STATE := some States.UNAVAILABLE } }, 1)) ∧
    (∀ v, ChannelsClient.status t = .ok v → (∀ fs, v ≠ JVal.jobj fs) →
      Device.poll_device d t =
        ({ d with power := .UNAVAILABLE,
                  attributes :=
                    { d.attributes with STATE := some States.UNAVAILABLE } }, 1)) ∧
    (∀ fs e, ChannelsClient.status t = .ok (.jobj fs) →
      dictGet fs "status" ≠ some (.jstr "offline") →
      (Device.update_state_from_status d fs).2 = some e →
      (Device.poll_device d t).1.attributes.STATE = some States.UNAVAILABLE ∧
      (Device.poll_device d t).1.power = States.UNAVAILABLE) := by
  refine ⟨?_, ?_, ?_, ?_⟩
  · intro e h
    rw [poll_fetch_err d t e h]
    rfl
  · intro fs h hoff
    rw [poll_ok_jobj d t fs h, hoff]
    rfl
  · intro v h hnotobj
    cases v
    case jobj fs => exact absurd rfl (hnotobj fs)
    all_goals (unfold Device.poll_device; rw [h])
    all_goals rfl
  · intro fs e h hne hrec
    rw [poll_ok_jobj d t fs h]
    split
    · rename_i heq
      exact absurd heq hne
    · split
      · rename_i d2 e2 heq
        exact ⟨rfl, rfl⟩
      · rename_i d2 heq
        rw [heq] at hrec
        simp at hrec

/-- Counterexample to claim C3 as stated: polling
`{"muted": true, "playback_time": {}}` raises a `TypeError` midway through
reconciliation; the state is forced to UNAVAILABLE but `muted` — assigned
before the raise — has changed from its prior value (`None` → `true`), so
"every other attribute field is unchanged" fails. -/
theorem C3_counterexample :
    (Device.poll_device initDevice (TransportOutcome.response true
        (some (.jobj [("muted", .jbool true),
                      ("playback_time", .jobj [])])))).1.attributes.STATE =
      some States.UNAVAILABLE ∧
    (Device.poll_device initDevice (TransportOutcome.response true
        (some (.jobj [("muted", .jbool true),
                      ("playback_time", .jobj [])])))).1.attributes.MUTED =
      .jbool true ∧
    initDevice.attributes.MUTED = .jnull :=
  ⟨rfl, rfl, rfl⟩

/-- Witness for the amended C3: an unparseable body (fetch raises), a
timeout (offline envelope), and a parsed non-dict body (the string `"hi"`,
whose missing `.get` raises inside the guard) all force UNAVAILABLE and
change nothing else. -/
theorem C3_poll_failure_forces_unavailable_witness :
    Device.poll_device initDevice (TransportOutcome.response true none) =
      ({ initDevice with power := .UNAVAILABLE,
                         attributes :=
                           { initDevice.attributes with
                               STATE := some States.UNAVAILABLE } }, 1) ∧
    Device.poll_device initDevice TransportOutcome.timeout =
      ({ initDevice with power := .UNAVAILABLE,
                         attributes :=
                           { initDevice.attributes with
                               STATE := some States.UNAVAILABLE } }, 1) ∧
    Device.poll_device initDevice
        (TransportOutcome.response true (some (.jstr "hi"))) =
      ({ initDevice with power := .UNAVAILABLE,
                         attributes :=
                           { initDevice.attributes with
                               STATE := some States.UNAVAILABLE } }, 1) := by
  refine ⟨?_, ?_, ?_⟩
  · exact (C3_poll_failure_forces_unavailable initDevice _).1
      PyErr.jsonDecodeError rfl
  · exact (C3_poll_failure_forces_unavailable initDevice .timeout).2.1
      [("status", .jstr "offline")] rfl rfl
  · exact (C3_poll_failure_forces_unavailable initDevice _).2.2.1
      (.jstr "hi") rfl (by intro fs; simp)

/-- Claim C4: `Device.seek` computes `delta` as the target minus the last
known `media_position` (0 when unknown) and issues exactly one relative-seek
client call carrying `delta` when `delta` is nonzero, and no client call at
all when `delta` is zero. -/
theorem C4_seek_issues_relative_delta (a : MediaPlayerAttributes) (p : Int)
    (t : TransportOutcome) :
    (p - a.MEDIA_POSITION.getD 0 ≠ 0 →
      (Device.seek a p t).1 = [ClientCall.seekDelta (p - a.MEDIA_POSITION.getD 0)]) ∧
    (p - a.MEDIA_POSITION.getD 0 = 0 → (Device.seek a p t).1 = []) := by
  have hmain : (Device.seek a p t).1 =
      (if p - a.MEDIA_POSITION.getD 0 = 0 then []
       else [ClientCall.seekDelta (p - a.MEDIA_POSITION.getD 0)]) := by
    cases hmp : a.MEDIA_POSITION with
    | none => simp [Device.seek, hmp]; split_ifs <;> rfl
    | some n =>
      by_cases hn : n = 0
      · subst hn; simp [Device.seek, hmp]; split_ifs <;> rfl
      · simp [Device.seek, hmp, hn]; split_ifs <;> rfl
  constructor <;> intro hd <;> simp [hmain, hd]

/-- Witness for C4 at the spec's example: target 120 with last known position
100 issues exactly one relative seek of 20; target 100 issues none. -/
theorem C4_seek_issues_relative_delta_witness :
    (Device.seek { initDevice.attributes with MEDIA_POSITION := some 100 } 120
        TransportOutcome.timeout).1 = [ClientCall.seekDelta 20] ∧
    (Device.seek { initDevice.attributes with MEDIA_POSITION := some 100 } 100
        TransportOutcome.timeout).1 = [] := by
  constructor
  · have key := (C4_seek_issues_relative_delta
        { initDevice.attributes with MEDIA_POSITION := some 100 } 120
        TransportOutcome.timeout).1 (by decide)
    simpa using key
  · exact (C4_seek_issues_relative_delta
        { initDevice.attributes with MEDIA_POSITION := some 100 } 100
        TransportOutcome.timeout).2 (by decide)

/-- Claim C2 (amended): a transport-layer timeout or connection failure
(refused, reset, DNS failure) never raises out of any `ChannelsClient`
method: every method returns normally, with the envelope
`{"status": "offline"}` — except `favorite_channels`, which post-processes
the envelope (a dict, not a list) into the empty list. -/
theorem C2_transport_failure_normalized (n m : Int) (sec s1 s2 : String) :
    (ChannelsClient.status .timeout = .ok (.jobj [("status", .jstr "offline")]) ∧
     ChannelsClient.favorite_channels .timeout = .ok (.jarr []) ∧
     ChannelsClient.toggle_pause .timeout = .ok (.jobj [("status", .jstr "offline")]) ∧
     ChannelsClient.pause .timeout = .ok (.jobj [("status", .jstr "offline")]) ∧
     ChannelsClient.resume .timeout = .ok (.jobj [("status", .jstr "offline")]) ∧
     ChannelsClient.stop .timeout = .ok (.jobj [("status", .jstr "offline")]) ∧
     ChannelsClient.seek n .timeout = .ok (.jobj [("status", .jstr "offline")]) ∧
     ChannelsClient.seek_forward .timeout = .ok (.jobj [("status", .jstr "offline")]) ∧
     ChannelsClient.seek_backward .timeout = .ok (.jobj [("status", .jstr "offline")]) ∧
     ChannelsClient.skip_forward .timeout = .ok (.jobj [("status", .jstr "offline")]) ∧
     ChannelsClient.skip_backward .timeout = .ok (.jobj [("status", .jstr "offline")]) ∧
     ChannelsClient.toggle_mute .timeout = .ok (.jobj [("status", .jstr "offline")]) ∧
     ChannelsClient.toggle_pip .timeout = .ok (.jobj [("status", .jstr "offline")]) ∧
     ChannelsClient.channel_up .timeout = .ok (.jobj [("status", .jstr "offline")]) ∧
     ChannelsClient.channel_down .timeout = .ok (.jobj [("status", .jstr "offline")]) ∧
     ChannelsClient.previous_channel .timeout = .ok (.jobj [("status", .jstr "offline")]) ∧
     ChannelsClient.play_channel n .timeout = .ok (.jobj [("status", .jstr "offline")]) ∧
     ChannelsClient.play_recording m .timeout = .ok (.jobj [("status", .jstr "offline")]) ∧
     ChannelsClient.navigate sec .timeout = .ok (.jobj [("status", .jstr "offline")]) ∧
     ChannelsClient.notify s1 s2 .timeout = .ok (.jobj [("status", .jstr "offline")]) ∧
     ChannelsClient.toggle_cc .timeout = .ok (.jobj [("status", .jstr "offline")]) ∧
     ChannelsClient.toggle_record .timeout = .ok (.jobj [("status", .jstr "offline")])) ∧
    (ChannelsClient.status .connFailure = .ok (.jobj [("status", .jstr "offline")]) ∧
     ChannelsClient.favorite_channels .connFailure = .ok (.jarr []) ∧
     ChannelsClient.toggle_pause .connFailure = .ok (.jobj [("status", .jstr "offline")]) ∧
     ChannelsClient.pause .connFailure = .ok (.jobj [("status", .jstr "offline")]) ∧
     ChannelsClient.resume .connFailure = .ok (.jobj [("status", .jstr "offline")]) ∧
     ChannelsClient.stop .connFailure = .ok (.jobj [("status", .jstr "offline")]) ∧
     ChannelsClient.seek n .connFailure = .ok (.jobj [("status", .jstr "offline")]) ∧
     ChannelsClient.seek_forward .connFailure = .ok (.jobj [("status", .jstr "offline")]) ∧
     ChannelsClient.seek_backward .connFailure = .ok (.jobj [("status", .jstr "offline")]) ∧
     ChannelsClient.skip_forward .connFailure = .ok (.jobj [("status", .jstr "offline")]) ∧
     ChannelsClient.skip_backward .connFailure = .ok (.jobj [("status", .jstr "offline")]) ∧
     ChannelsClient.toggle_mute .connFailure = .ok (.jobj [("status", .jstr "offline")]) ∧
     ChannelsClient.toggle_pip .connFailure = .ok (.jobj [("status", .jstr "offline")]) ∧
     ChannelsClient.channel_up .connFailure = .ok (.jobj [("status", .jstr "offline")]) ∧
     ChannelsClient.channel_down .connFailure = .ok (.jobj [("status", .jstr "offline")]) ∧
     ChannelsClient.previous_channel .connFailure = .ok (.jobj [("status", .jstr "offline")]) ∧
     ChannelsClient.play_channel n .connFailure = .ok (.jobj [("status", .jstr "offline")]) ∧
     ChannelsClient.play_recording m .connFailure = .ok (.jobj [("status", .jstr "offline")]) ∧
     ChannelsClient.navigate sec .connFailure = .ok (.jobj [("status", .jstr "offline")]) ∧
     ChannelsClient.notify s1 s2 .connFailure = .ok (.jobj [("status", .jstr "offline")]) ∧
     ChannelsClient.toggle_cc .connFailure = .ok (.jobj [("status", .jstr "offline")]) ∧
     ChannelsClient.toggle_record .connFailure = .ok (.jobj [("status", .jstr "offline")])) :=
  ⟨⟨rfl, rfl, rfl, rfl, rfl, rfl, rfl, rfl, rfl, rfl, rfl, rfl, rfl, rfl, rfl,
    rfl, rfl, rfl, rfl, rfl, rfl, rfl⟩,
   ⟨rfl, rfl, rfl, rfl, rfl, rfl, rfl, rfl, rfl, rfl, rfl, rfl, rfl, rfl, rfl,
    rfl, rfl, rfl, rfl, rfl, rfl, rfl⟩⟩

/-- Counterexample to claim C2 as stated: under a transport timeout,
`favorite_channels` returns the empty list, not the offline envelope
(it never raises either — the normalized envelope is swallowed by its
`isinstance(response, list)` check). -/
theorem C2_counterexample :
    ChannelsClient.favorite_channels TransportOutcome.timeout = .ok (.jarr []) ∧
    ChannelsClient.favorite_channels TransportOutcome.timeout ≠
      .ok (.jobj [("status", .jstr "offline")]) := by
  refine ⟨rfl, ?_⟩
  intro h
  rw [show ChannelsClient.favorite_channels TransportOutcome.timeout =
      .ok (.jarr []) from rfl] at h
  simp at h

/-- Claim C7 evaluated at its failing input: a non-2xx response carrying the
parseable error body `{"error": "boom"}` is returned parsed, exactly like a
success — not normalized to the `{"status": "error"}` envelope — because the
client never enables `raise_for_status`, so aiohttp raises no
`ClientResponseError` for a plain non-2xx response and the `except
aiohttp.ClientResponseError` handler is dead code. -/
theorem C7_non2xx_body_returned_parsed :
    ChannelsClient.status (TransportOutcome.response false
        (some (.jobj [("error", .jstr "boom")]))) =
      .ok (.jobj [("error", .jstr "boom")]) ∧
    (Except.ok (JVal.jobj [("error", .jstr "boom")]) : Except PyErr JVal) ≠
      .ok (.jobj [("status", .jstr "error")]) := by
  refine ⟨rfl, ?_⟩
  simp

/-- Claim C8 (amended): a response body that fails to parse as JSON makes
every client method raise the parse error (`json.JSONDecodeError`, a
`ValueError` matched by none of the client's `except` clauses) instead of
returning the offline envelope — regardless of the HTTP status flag. -/
theorem C8_parse_failure_raises (b : Bool) (n m : Int) (sec s1 s2 : String) :
    ChannelsClient.status (.response b none) = .error PyErr.jsonDecodeError ∧
    ChannelsClient.favorite_channels (.response b none) = .error PyErr.jsonDecodeError ∧
    ChannelsClient.toggle_pause (.response b none) = .error PyErr.jsonDecodeError ∧
    ChannelsClient.pause (.response b none) = .error PyErr.jsonDecodeError ∧
    ChannelsClient.resume (.response b none) = .error PyErr.jsonDecodeError ∧
    ChannelsClient.stop (.response b none) = .error PyErr.jsonDecodeError ∧
    ChannelsClient.seek n (.response b none) = .error PyErr.jsonDecodeError ∧
    ChannelsClient.seek_forward (.response b none) = .error PyErr.jsonDecodeError ∧
    ChannelsClient.seek_backward (.response b none) = .error PyErr.jsonDecodeError ∧
    ChannelsClient.skip_forward (.response b none) = .error PyErr.jsonDecodeError ∧
    ChannelsClient.skip_backward (.response b none) = .error PyErr.jsonDecodeError ∧
    ChannelsClient.toggle_mute (.response b none) = .error PyErr.jsonDecodeError ∧
    ChannelsClient.toggle_pip (.response b none) = .error PyErr.jsonDecodeError ∧
    ChannelsClient.channel_up (.response b none) = .error PyErr.jsonDecodeError ∧
    ChannelsClient.channel_down (.response b none) = .error PyErr.jsonDecodeError ∧
    ChannelsClient.previous_channel (.response b none) = .error PyErr.jsonDecodeError ∧
    ChannelsClient.play_channel n (.response b none) = .error PyErr.jsonDecodeError ∧
    ChannelsClient.play_recording m (.response b none) = .error PyErr.jsonDecodeError ∧
    ChannelsClient.navigate sec (.response b none) = .error PyErr.jsonDecodeError ∧
    ChannelsClient.notify s1 s2 (.response b none) = .error PyErr.jsonDecodeError ∧
    ChannelsClient.toggle_cc (.response b none) = .error PyErr.jsonDecodeError ∧
    ChannelsClient.toggle_record (.response b none) = .error PyErr.jsonDecodeError :=
  ⟨rfl, rfl, rfl, rfl, rfl, rfl, rfl, rfl, rfl, rfl, rfl, rfl, rfl, rfl, rfl,
   rfl, rfl, rfl, rfl, rfl, rfl, rfl⟩

/-- Counterexample to claim C8 as stated: an unparseable 2xx body makes
`status` raise the parse error rather than return the offline envelope. -/
theorem C8_counterexample :
    ChannelsClient.status (TransportOutcome.response true none) =
      .error PyErr.jsonDecodeError ∧
    ChannelsClient.status (TransportOutcome.response true none) ≠
      .ok (.jobj [("status", .jstr "offline")]) := by
  refine ⟨rfl, ?_⟩
  intro h
  rw [show ChannelsClient.status (TransportOutcome.response true none) =
      .error PyErr.jsonDecodeError from rfl] at h
  simp at h

/-- Claim C9 (amended): the adapter's command methods contain no exception
handling of their own, but transport failures never reach them as
exceptions — the client normalizes a timeout or connection failure into an
envelope return value, which the command methods silently discard, so the
command completes normally and dispatch reports OK. Only an exception the
client does not catch (the JSON parse error) propagates out of the adapter,
and dispatch maps it to BAD_REQUEST. -/
theorem C9_command_failure_propagation (d : DeviceState) (b : Bool) (p : Int) :
    (Device.play_pause .timeout = .ok () ∧
     Device.pause .timeout = .ok () ∧
     Device.play .timeout = .ok () ∧
     Device.stop .timeout = .ok () ∧
     Device.mute_toggle .timeout = .ok () ∧
     Device.channel_up .timeout = .ok () ∧
     Device.channel_down .timeout = .ok () ∧
     Device.previous_channel .timeout = .ok () ∧
     Device.seek_forward .timeout = .ok () ∧
     Device.seek_backward .timeout = .ok () ∧
     Device.skip_forward .timeout = .ok () ∧
     Device.skip_backward .timeout = .ok () ∧
     Device.toggle_cc .timeout = .ok () ∧
     Device.toggle_record .timeout = .ok () ∧
     (Device.seek d.attributes p .timeout).2 = .ok () ∧
     Device.play_pause .connFailure = .ok () ∧
     handle_command d .PLAY_PAUSE .timeout = .OK ∧
     handle_command d .PLAY_PAUSE .connFailure = .OK) ∧
    (Device.play_pause (.response b none) = .error PyErr.jsonDecodeError ∧
     Device.stop (.response b none) = .error PyErr.jsonDecodeError ∧
     handle_command d .PLAY_PAUSE (.response b none) = .BAD_REQUEST ∧
     handle_command d .STOP (.response b none) = .BAD_REQUEST) := by
  refine ⟨⟨rfl, rfl, rfl, rfl, rfl, rfl, rfl, rfl, rfl, rfl, rfl, rfl, rfl, rfl,
           ?_, rfl, rfl, rfl⟩, rfl, rfl, rfl, rfl⟩
  unfold Device.seek
  split
  all_goals dsimp only
  all_goals repeat' split
  all_goals first
    | rfl
    | simp_all [ChannelsClient.seek, ChannelsClient.command, ChannelsClient.request,
                sessionRequestJson]

/-- Counterexample to claim C9 as stated: a transport timeout — a transport
failure occurring while executing play_pause — does not propagate out of the
adapter: the method completes normally and the command dispatcher reports
OK, not a command-rejected outcome. -/
theorem C9_counterexample :
    Device.play_pause TransportOutcome.timeout = .ok () ∧
    handle_command initDevice CmdId.PLAY_PAUSE TransportOutcome.timeout =
      StatusCodes.OK :=
  ⟨rfl, rfl⟩

/-- Claim C5 (amended): for every payload whose `now_playing` value is absent
or falsy, whose `channel` value is a nonempty dict, whose earlier
reconciliation steps do not raise (the `status` value is hashable and
`playback_time` is absent, null, or int-convertible), and whose channel
`number` is a string or absent (defaulting to the empty string),
reconciliation raises nothing and sets `media_type` = TVSHOW, `media_title`
= the channel's name, `media_artist` = `"Ch. "` concatenated with the number,
`media_image_url` = the channel's `image_url`, and `media_duration` = absent.
(The original claim fails for an empty `channel` object and for a non-string
`number` — see the counterexample.) -/
theorem C5_channel_only_reconciliation (d : DeviceState)
    (status fs : List (String × JVal)) (st : States) (pos : Option Int)
    (ns : String)
    (hnp : truthy ((dictGet status "now_playing").getD .jnull) = false)
    (hch : dictGet status "channel" = some (.jobj fs))
    (hne : fs.isEmpty = false)
    (hst : stateMapGet ((dictGet status "status").getD (.jstr "stopped")) = .ok st)
    (hpos : playbackPosition status = .ok pos)
    (hn : (dictGet fs "number").getD (.jstr "") = .jstr ns) :
    (Device.update_state_from_status d status).2 = none ∧
    (Device.update_state_from_status d status).1.attributes.MEDIA_TYPE =
      some MediaType.TVSHOW ∧
    (Device.update_state_from_status d status).1.attributes.MEDIA_TITLE =
      (dictGet fs "name").getD .jnull ∧
    (Device.update_state_from_status d status).1.attributes.MEDIA_ARTIST =
      .jstr ("Ch. " ++ ns) ∧
    (Device.update_state_from_status d status).1.attributes.MEDIA_IMAGE_URL =
      (dictGet fs "image_url").getD .jnull ∧
    (Device.update_state_from_status d status).1.attributes.MEDIA_DURATION =
      none := by
  have hchan : truthy (JVal.jobj fs) = true := by simp [truthy, hne]
  unfold Device.update_state_from_status contentChannel
  rw [hst, hpos, hch]
  simp [hnp, hchan, hn, DeviceState.setAttrs, JVal.get, JVal.getD]

/-- Counterexample to claim C5 as stated: the payload `{"channel": {}}` has a
channel object and no now_playing, yet reconciliation takes the idle branch
(`media_type` cleared, not TVSHOW) because an empty dict is falsy; and
`{"channel": {"number": 7}}` (an int-typed number) raises a `TypeError` from
the string concatenation instead of setting `media_artist`. -/
theorem C5_counterexample :
    (Device.update_state_from_status initDevice
        [("channel", .jobj [])]).2 = none ∧
    (Device.update_state_from_status initDevice
        [("channel", .jobj [])]).1.attributes.MEDIA_TYPE = none ∧
    (Device.update_state_from_status initDevice
        [("channel", .jobj [("number", .jint 7)])]).2 = some PyErr.typeError ∧
    (Device.update_state_from_status initDevice
        [("channel", .jobj [("number", .jint 7)])]).1.attributes.MEDIA_ARTIST =
      .jnull :=
  ⟨rfl, rfl, rfl, rfl⟩

/-- Witness for the amended C5 at the spec's example payload
`{"channel": {"name": "ABC", "number": "7"}}`. -/
theorem C5_channel_only_reconciliation_witness :
    (Device.update_state_from_status initDevice
        [("channel", .jobj [("name", .jstr "ABC"), ("number", .jstr "7")])]).2 =
      none ∧
    (Device.update_state_from_status initDevice
        [("channel", .jobj [("name", .jstr "ABC"),
                            ("number", .jstr "7")])]).1.attributes.MEDIA_TYPE =
      some MediaType.TVSHOW ∧
    (Device.update_state_from_status initDevice
        [("channel", .jobj [("name", .jstr "ABC"),
                            ("number", .jstr "7")])]).1.attributes.MEDIA_TITLE =
      (dictGet [("name", .jstr "ABC"), ("number", .jstr "7")] "name").getD .jnull ∧
    (Device.update_state_from_status initDevice
        [("channel", .jobj [("name", .jstr "ABC"),
                            ("number", .jstr "7")])]).1.attributes.MEDIA_ARTIST =
      .jstr ("Ch. " ++ "7") ∧
    (Device.update_state_from_status initDevice
        [("channel", .jobj [("name", .jstr "ABC"),
                            ("number", .jstr "7")])]).1.attributes.MEDIA_IMAGE_URL =
      (dictGet [("name", .jstr "ABC"), ("number", .jstr "7")] "image_url").getD .jnull ∧
    (Device.update_state_from_status initDevice
        [("channel", .jobj [("name", .jstr "ABC"),
                            ("number", .jstr "7")])]).1.attributes.MEDIA_DURATION =
      none :=
  C5_channel_only_reconciliation initDevice
    [("channel", .jobj [("name", .jstr "ABC"), ("number", .jstr "7")])]
    [("name", .jstr "ABC"), ("number", .jstr "7")]
    States.OFF none "7" rfl rfl rfl rfl rfl rfl
